import Mathlib

/-!
Verification of the daily nutrition aggregation, goal-progress, validation and
recommendation logic of the personal diet tracker.

The TypeScript arithmetic is embedded shallowly: numbers become rationals, and
where a division can hit a zero denominator the JavaScript special values
(NaN, Infinity, -Infinity) are modelled explicitly by the JSNum type, since the
propagation of those values is exactly what several properties are about.
Optional fields become Option, and JavaScript truthiness tests on them are
modelled by dedicated predicates (undefined and 0 are falsy).
-/

namespace DietTracker

/-- Model of a JavaScript number as used by the dashboard arithmetic: a finite
rational, or one of the special values NaN, Infinity, -Infinity produced by
division by zero. Finite arithmetic is exact rational arithmetic. -/
inductive JSNum where
  | num : ℚ → JSNum
  | nan : JSNum
  | posInf : JSNum
  | negInf : JSNum
  deriving DecidableEq

/-- JavaScript division: x/0 is NaN when x is 0, otherwise a signed infinity;
NaN propagates; a finite value divided by an infinity is 0. -/
def jsDiv : JSNum → JSNum → JSNum
  | JSNum.num a, JSNum.num b =>
      if b = 0 then
        (if a = 0 then JSNum.nan else if 0 < a then JSNum.posInf else JSNum.negInf)
      else JSNum.num (a / b)
  | JSNum.nan, _ => JSNum.nan
  | _, JSNum.nan => JSNum.nan
  | JSNum.posInf, JSNum.num b => if 0 ≤ b then JSNum.posInf else JSNum.negInf
  | JSNum.negInf, JSNum.num b => if 0 ≤ b then JSNum.negInf else JSNum.posInf
  | JSNum.num _, _ => JSNum.num 0
  | _, _ => JSNum.nan

/-- JavaScript multiplication on the number model: NaN propagates and an
infinity times zero is NaN. -/
def jsMul : JSNum → JSNum → JSNum
  | JSNum.num a, JSNum.num b => JSNum.num (a * b)
  | JSNum.nan, _ => JSNum.nan
  | _, JSNum.nan => JSNum.nan
  | JSNum.posInf, JSNum.num b =>
      if b = 0 then JSNum.nan else if 0 < b then JSNum.posInf else JSNum.negInf
  | JSNum.num a, JSNum.posInf =>
      if a = 0 then JSNum.nan else if 0 < a then JSNum.posInf else JSNum.negInf
  | JSNum.negInf, JSNum.num b =>
      if b = 0 then JSNum.nan else if 0 < b then JSNum.negInf else JSNum.posInf
  | JSNum.num a, JSNum.negInf =>
      if a = 0 then JSNum.nan else if 0 < a then JSNum.negInf else JSNum.posInf
  | JSNum.posInf, JSNum.posInf => JSNum.posInf
  | JSNum.posInf, JSNum.negInf => JSNum.negInf
  | JSNum.negInf, JSNum.posInf => JSNum.negInf
  | JSNum.negInf, JSNum.negInf => JSNum.posInf

/-- Math.max: returns NaN when either argument is NaN. -/
def jsMax : JSNum → JSNum → JSNum
  | JSNum.nan, _ => JSNum.nan
  | _, JSNum.nan => JSNum.nan
  | JSNum.posInf, _ => JSNum.posInf
  | _, JSNum.posInf => JSNum.posInf
  | JSNum.negInf, b => b
  | a, JSNum.negInf => a
  | JSNum.num a, JSNum.num b => JSNum.num (max a b)

/-- Math.min: returns NaN when either argument is NaN. -/
def jsMin : JSNum → JSNum → JSNum
  | JSNum.nan, _ => JSNum.nan
  | _, JSNum.nan => JSNum.nan
  | JSNum.negInf, _ => JSNum.negInf
  | _, JSNum.negInf => JSNum.negInf
  | JSNum.posInf, b => b
  | a, JSNum.posInf => a
  | JSNum.num a, JSNum.num b => JSNum.num (min a b)

/-- JavaScript strict less-than: any comparison with NaN is false. -/
def jsLt : JSNum → JSNum → Bool
  | JSNum.nan, _ => false
  | _, JSNum.nan => false
  | JSNum.num a, JSNum.num b => decide (a < b)
  | JSNum.posInf, _ => false
  | JSNum.negInf, JSNum.negInf => false
  | JSNum.negInf, _ => true
  | JSNum.num _, JSNum.posInf => true
  | JSNum.num _, JSNum.negInf => false

/-- Math.min(Math.max(progress, 0), 100), the clamp applied to progress-bar
values in ProgressTracker. -/
def jsClampProgress (progress : JSNum) : JSNum :=
  jsMin (jsMax progress (JSNum.num 0)) (JSNum.num 100)

/-- Whether a JavaScript value is a finite number lying in the interval
from 0 to 100 (the range a progress bar expects). -/
def withinProgressRange : JSNum → Bool
  | JSNum.num q => decide (0 ≤ q ∧ q ≤ 100)
  | _ => false

/-- JavaScript truthiness of an optional numeric field: undefined and 0 are
falsy, every other number is truthy. -/
def truthyNum : Option ℚ → Bool
  | none => false
  | some q => decide (q ≠ 0)

/-- JavaScript truthiness of an optional string field: undefined and the empty
string are falsy. -/
def truthyStr : Option String → Bool
  | none => false
  | some s => decide (s ≠ "")

/-- An ISO-8601 timestamp string, modelled by the local date-time it spells out
(as whole minutes on a linear day scale, day d covering minutes 1440*d to
1440*d + 1439) together with the UTC offset it carries (in minutes). The
instant it denotes is localMinutes - offsetMinutes on the UTC scale. -/
structure Timestamp where
  localMinutes : ℤ
  offsetMinutes : ℤ
  deriving DecidableEq

/-- The calendar-day index of a minute count, i.e. the floor of division by
1440 (Int.ediv is floor division for the positive divisor). A day index stands
in for the year-month-day triple, which it determines uniquely. -/
def dayIndex (minutes : ℤ) : ℤ := Int.ediv minutes 1440

/-- Embeds the composite used throughout the dashboard components: parsing the
created_at string applies its UTC offset to obtain the instant, and
toISOString followed by splitting at the letter T yields the UTC calendar
date of that instant. -/
def toISODateDay (t : Timestamp) : ℤ := dayIndex (t.localMinutes - t.offsetMinutes)

/-- The year-month-day written literally in the timestamp string, with the
time of day and the offset dropped unused (the reading the claim takes). -/
def literalDay (t : Timestamp) : ℤ := dayIndex t.localMinutes

/-- The filter predicate shared by DailyOverview, ProgressTracker and
RecommendationCard: a log row matches the reference day when the UTC calendar
date of its created_at equals the reference UTC calendar date. -/
def matchesDate (t : Timestamp) (refDay : ℤ) : Bool :=
  toISODateDay t == refDay

/-- A meal-log row as consumed by the dashboard components. -/
structure MealLog where
  total_calories : ℚ
  protein : ℚ
  carbs : ℚ
  fat : ℚ
  created_at : Timestamp
  deriving DecidableEq

/-- The record shape produced by the daily reduce: calories, protein, carbs
and fat sums. -/
structure Totals where
  calories : ℚ
  protein : ℚ
  carbs : ℚ
  fat : ℚ
  deriving DecidableEq

/-- The initial accumulator of the daily reduce. -/
def zeroTotals : Totals := ⟨0, 0, 0, 0⟩

/-- One step of the daily reduce in DailyOverview and RecommendationCard. -/
def addLog (acc : Totals) (log : MealLog) : Totals :=
  ⟨acc.calories + log.total_calories,
   acc.protein + log.protein,
   acc.carbs + log.carbs,
   acc.fat + log.fat⟩

/-- The rows of a meal-log list whose created_at falls on the reference UTC
day, as filtered by the dashboard components. -/
def todayLogs (mealLogs : List MealLog) (refDay : ℤ) : List MealLog :=
  mealLogs.filter (fun log => matchesDate log.created_at refDay)

/-- The daily totals aggregator: reduce of the matching rows starting from the
all-zero record. -/
def dailyTotals (mealLogs : List MealLog) (refDay : ℤ) : Totals :=
  (todayLogs mealLogs refDay).foldl addLog zeroTotals

/-- The user-goals row as consumed by the dashboard. -/
structure UserGoals where
  target_calories : Option ℚ
  target_protein_ratio : Option ℚ
  target_carbs_ratio : Option ℚ
  target_fat_ratio : Option ℚ
  deriving DecidableEq

/-- The getMacroProgress helper of DailyOverview. The divisor is chosen by
comparing the ratio passed in against the fat ratio of the goals record; the
guard makes the later denominator nonzero, so plain rational division is
faithful here. -/
def getMacroProgress (current : ℚ) (targetRatio : Option ℚ) (totalCalories : ℚ)
    (target_fat_ratio : Option ℚ) : ℚ :=
  if truthyNum targetRatio = false ∨ totalCalories = 0 then 0
  else
    let targetGrams := targetRatio.getD 0 / 100 * totalCalories /
      (if targetRatio = target_fat_ratio then 9 else 4)
    current / targetGrams * 100

/-- The grams-target formula as the specification states it. -/
def specGramsTarget (ratioPercent totalCalories kcalPerGram : ℚ) : ℚ :=
  ratioPercent / 100 * totalCalories / kcalPerGram

/-- The calories field of the percentages record of DailyOverview. The guard
makes the divisor nonzero, so plain rational division is faithful. -/
def percentagesCalories (goals : UserGoals) (totals : Totals) : ℚ :=
  if truthyNum goals.target_calories then
    totals.calories / goals.target_calories.getD 0 * 100
  else 0

/-- Common shape of the three macro fields of the percentages record of
DailyOverview: observed over ratio times calories over scale, times 100. The
inner product can be zero even when the ratio is truthy, so the division is
modelled with JavaScript semantics. -/
def percentagesMacroField (targetRatio : Option ℚ) (observed totalsCalories scale : ℚ) :
    JSNum :=
  if truthyNum targetRatio then
    jsMul
      (jsDiv (JSNum.num observed)
        (JSNum.num (targetRatio.getD 0 * totalsCalories / scale)))
      (JSNum.num 100)
  else JSNum.num 0

/-- The protein field of the percentages record (scale 400). -/
def percentagesProtein (goals : UserGoals) (totals : Totals) : JSNum :=
  percentagesMacroField goals.target_protein_ratio totals.protein totals.calories 400

/-- The carbs field of the percentages record (scale 400). -/
def percentagesCarbs (goals : UserGoals) (totals : Totals) : JSNum :=
  percentagesMacroField goals.target_carbs_ratio totals.carbs totals.calories 400

/-- The fat field of the percentages record (scale 900). -/
def percentagesFat (goals : UserGoals) (totals : Totals) : JSNum :=
  percentagesMacroField goals.target_fat_ratio totals.fat totals.calories 900

/-- The calculateWeightProgress helper of ProgressTracker. The guard only
excludes zero weights, so the division can produce NaN (equal weights) or an
infinity, modelled with JavaScript semantics; the result is clamped by
Math.min and Math.max. -/
def calculateWeightProgress (currentWeight targetWeight : ℚ) (goalType : String) :
    JSNum :=
  if currentWeight = 0 ∨ targetWeight = 0 then JSNum.num 0
  else if goalType = "lose_weight" then
    let startWeight := max currentWeight targetWeight
    jsClampProgress
      (jsMul
        (jsDiv (JSNum.num (startWeight - currentWeight))
          (JSNum.num (startWeight - targetWeight)))
        (JSNum.num 100))
  else if goalType = "gain_weight" then
    let startWeight := min currentWeight targetWeight
    jsClampProgress
      (jsMul
        (jsDiv (JSNum.num (currentWeight - startWeight))
          (JSNum.num (targetWeight - startWeight)))
        (JSNum.num 100))
  else JSNum.num 0

/-- The calculateCalorieProgress helper of ProgressTracker: today total over
the target, times 100, clamped. The guard makes the divisor truthy hence
nonzero, so plain rational division is faithful. -/
def calculateCalorieProgress (mealLogs : List MealLog) (target_calories : Option ℚ)
    (refDay : ℤ) : ℚ :=
  if mealLogs.isEmpty ∨ truthyNum target_calories = false then 0
  else
    let totalCalories := (todayLogs mealLogs refDay).foldl
      (fun sum log => sum + log.total_calories) 0
    let progress := totalCalories / target_calories.getD 0 * 100
    min (max progress 0) 100

/-- The macro sum watched by GoalSetting: each watched ratio coerced to 0 when
absent (undefined or an empty numeric field). -/
def macroSum (protein carbs fat : Option ℚ) : ℚ :=
  protein.getD 0 + carbs.getD 0 + fat.getD 0

/-- The showMacroSumWarning flag of GoalSetting: the sum is positive and
differs from 100. -/
def showMacroSumWarning (protein carbs fat : Option ℚ) : Bool :=
  decide (0 < macroSum protein carbs fat) && decide (macroSum protein carbs fat ≠ 100)

/-- The disabled attribute of the Save Goals submit button: disabled while the
form is pristine or while the macro-sum warning shows. -/
def saveGoalsDisabled (isDirty : Bool) (protein carbs fat : Option ℚ) : Bool :=
  !isDirty || showMacroSumWarning protein carbs fat

/-- The refinement of goalSettingSchema in validation.ts: when all three
ratios are truthy their sum must equal 100, otherwise the data is accepted. -/
def goalSettingMacroRefine (protein carbs fat : Option ℚ) : Bool :=
  if truthyNum protein && truthyNum carbs && truthyNum fat then
    decide (protein.getD 0 + carbs.getD 0 + fat.getD 0 = 100)
  else true

/-- A food item of the meal-logging form: per-serving values plus a quantity. -/
structure FoodItemData where
  name : String
  calories : ℚ
  protein : ℚ
  carbs : ℚ
  fat : ℚ
  quantity : ℚ
  unit : String
  barcode : Option String
  deriving DecidableEq

/-- One step of the totalNutrition reduce of the MealLogger onSubmit handler:
each per-serving value is multiplied by the item quantity. -/
def nutritionStep (acc : Totals) (item : FoodItemData) : Totals :=
  ⟨acc.calories + item.calories * item.quantity,
   acc.protein + item.protein * item.quantity,
   acc.carbs + item.carbs * item.quantity,
   acc.fat + item.fat * item.quantity⟩

/-- The totalNutrition reduce of the MealLogger onSubmit handler. -/
def totalNutrition (food_items : List FoodItemData) : Totals :=
  food_items.foldl nutritionStep zeroTotals

/-- The meal payload assembled by the MealLogger onSubmit handler (the fields
the round-trip property is about). -/
structure MealData where
  food_items : List FoodItemData
  total_calories : ℚ
  total_protein : ℚ
  total_carbs : ℚ
  total_fat : ℚ
  deriving DecidableEq

/-- Assembly of the meal payload in onSubmit: totals from totalNutrition, and
the food items re-recorded field by field without scaling. -/
def buildMealData (food_items : List FoodItemData) : MealData :=
  ⟨food_items.map (fun item =>
      ⟨item.name, item.calories, item.protein, item.carbs, item.fat,
       item.quantity, item.unit, item.barcode⟩),
   (totalNutrition food_items).calories,
   (totalNutrition food_items).protein,
   (totalNutrition food_items).carbs,
   (totalNutrition food_items).fat⟩

/-- The totals columns of the meal_logs row inserted by the logMeal service. -/
structure MealLogRow where
  total_calories : ℚ
  total_protein : ℚ
  total_carbs : ℚ
  total_fat : ℚ
  deriving DecidableEq

/-- A meal_food_items row inserted by the logMeal service. -/
structure FoodItemRow where
  name : String
  calories : ℚ
  protein : ℚ
  carbs : ℚ
  fat : ℚ
  quantity : ℚ
  unit : String
  barcode : Option String
  deriving DecidableEq

/-- The logMeal service: inserts the meal_logs row with the totals of the
payload copied verbatim, then one meal_food_items row per food item with its
fields copied verbatim. -/
def logMeal (mealData : MealData) : MealLogRow × List FoodItemRow :=
  (⟨mealData.total_calories, mealData.total_protein,
    mealData.total_carbs, mealData.total_fat⟩,
   mealData.food_items.map (fun item =>
     ⟨item.name, item.calories, item.protein, item.carbs, item.fat,
      item.quantity, item.unit, item.barcode⟩))

/-- The profile fields consumed by RecommendationCard and ProgressTracker. -/
structure UserProfileData where
  goal_type : Option String
  weight_kg : Option ℚ
  target_weight : Option ℚ
  deriving DecidableEq

/-- The messages getRecommendations can push, one constructor per template
string, carrying the number interpolated into the message. -/
inductive Recommendation where
  | addSnack : ℚ → Recommendation
  | adjustNextMeal : ℚ → Recommendation
  | moreProtein : Recommendation
  | moreCarbs : Recommendation
  | moreFats : Recommendation
  | weightLossProgress : ℚ → Recommendation
  | weightGainProgress : ℚ → Recommendation
  | keepTracking : Recommendation
  deriving DecidableEq

/-- The calorie-intake branch of getRecommendations: with a truthy calorie
target, a deficit above 500 suggests a snack and an excess above 500 suggests
adjusting the next meal. -/
def calorieRecommendations (goals : UserGoals) (totals : Totals) : List Recommendation :=
  if truthyNum goals.target_calories then
    let calorieDiff := goals.target_calories.getD 0 - totals.calories
    if 500 < calorieDiff then [Recommendation.addSnack calorieDiff]
    else if calorieDiff < -500 then [Recommendation.adjustNextMeal |calorieDiff|]
    else []
  else []

/-- The macro-ratio branch of getRecommendations. The observed ratios divide
by the macro total, which is zero on an empty day, so the comparisons use the
JavaScript semantics under which a NaN comparison is false. -/
def macroRecommendations (goals : UserGoals) (totals : Totals) : List Recommendation :=
  if truthyNum goals.target_protein_ratio && truthyNum goals.target_carbs_ratio &&
      truthyNum goals.target_fat_ratio then
    let totalMacros := totals.protein + totals.carbs + totals.fat
    let proteinRatio := jsMul (jsDiv (JSNum.num totals.protein) (JSNum.num totalMacros))
      (JSNum.num 100)
    let carbsRatio := jsMul (jsDiv (JSNum.num totals.carbs) (JSNum.num totalMacros))
      (JSNum.num 100)
    let fatRatio := jsMul (jsDiv (JSNum.num totals.fat) (JSNum.num totalMacros))
      (JSNum.num 100)
    (if jsLt proteinRatio (JSNum.num (goals.target_protein_ratio.getD 0 * (8 / 10)))
      then [Recommendation.moreProtein] else []) ++
    (if jsLt carbsRatio (JSNum.num (goals.target_carbs_ratio.getD 0 * (8 / 10)))
      then [Recommendation.moreCarbs] else []) ++
    (if jsLt fatRatio (JSNum.num (goals.target_fat_ratio.getD 0 * (8 / 10)))
      then [Recommendation.moreFats] else [])
  else []

/-- The weight-progress branch of getRecommendations. -/
def weightRecommendations (profile : UserProfileData) : List Recommendation :=
  if truthyStr profile.goal_type && truthyNum profile.weight_kg &&
      truthyNum profile.target_weight then
    let weightDiff := profile.target_weight.getD 0 - profile.weight_kg.getD 0
    if profile.goal_type = some "lose_weight" ∧ 0 < weightDiff then
      [Recommendation.weightLossProgress weightDiff]
    else if profile.goal_type = some "gain_weight" ∧ weightDiff < 0 then
      [Recommendation.weightGainProgress |weightDiff|]
    else []
  else []

/-- The recommendations array of getRecommendations before the fallback: the
three rule branches in source order. -/
def recommendationRules (profile : UserProfileData) (goals : UserGoals)
    (totals : Totals) : List Recommendation :=
  calorieRecommendations goals totals ++ macroRecommendations goals totals ++
    weightRecommendations profile

/-- The getRecommendations function of RecommendationCard: the rule output,
or the single keep-tracking message when no rule fired. -/
def getRecommendations (profile : UserProfileData) (goals : UserGoals)
    (totals : Totals) : List Recommendation :=
  let recommendations := recommendationRules profile goals totals
  if recommendations.isEmpty then [Recommendation.keepTracking] else recommendations

/-- getRecommendations as wired in the component: the totals are the daily
totals of the meal-log list for the reference day. -/
def getRecommendationsFromLogs (profile : UserProfileData) (goals : UserGoals)
    (mealLogs : List MealLog) (refDay : ℤ) : List Recommendation :=
  getRecommendations profile goals (dailyTotals mealLogs refDay)

theorem foldl_nutritionStep (food_items : List FoodItemData) (acc : Totals) :
    food_items.foldl nutritionStep acc =
      ⟨acc.calories + (food_items.map (fun item => item.calories * item.quantity)).sum,
       acc.protein + (food_items.map (fun item => item.protein * item.quantity)).sum,
       acc.carbs + (food_items.map (fun item => item.carbs * item.quantity)).sum,
       acc.fat + (food_items.map (fun item => item.fat * item.quantity)).sum⟩ := by
  induction food_items generalizing acc with
  | nil => simp
  | cons head tail ih =>
      simp [List.foldl_cons, ih, nutritionStep, add_assoc]

/-- C1: the spec formula uses kcal-per-gram 4 for protein, but getMacroProgress
selects the divisor by comparing the ratio value against the fat ratio, so at
goals 30/40/30 the protein progress is computed with divisor 9 (yielding 225
percent at 150 g observed and 2000 kcal) where the specified formula yields a
150 g target and 100 percent; the percentages record in the same file uses the
fixed divisor 4 and agrees with the specification. -/
theorem getMacroProgress_divisor_bug_eval :
    getMacroProgress 150 (some 30) 2000 (some 30) = 225 ∧
    specGramsTarget 30 2000 4 = 150 ∧
    150 / specGramsTarget 30 2000 4 * 100 = 100 ∧
    percentagesProtein ⟨none, some 30, none, none⟩ ⟨2000, 150, 0, 0⟩ = JSNum.num 100 := by
  refine ⟨?_, by norm_num [specGramsTarget], by norm_num [specGramsTarget], ?_⟩
  · norm_num [getMacroProgress, truthyNum]
  · norm_num [percentagesProtein, percentagesMacroField, truthyNum, jsDiv, jsMul]

/-- C2 counterexample: with current weight 75 and target 70 under lose_weight
the code returns 0 percent, not the 50 percent the claim states, because the
start weight is recomputed as max(75, 70) = 75 on every call. -/
theorem calculateWeightProgress_not_fifty_at_75_70 :
    calculateWeightProgress 75 70 "lose_weight" = JSNum.num 0 ∧
    JSNum.num (0 : ℚ) ≠ JSNum.num 50 := by
  constructor
  · norm_num [calculateWeightProgress, jsDiv, jsMul, jsClampProgress, jsMax, jsMin]
  · intro h
    exact absurd (JSNum.num.inj h) (by norm_num)

/-- C2 amended: for lose_weight with 0 < target < current, the progress is the
claimed formula with start weight max(current, target), and since that maximum
is the current weight the formula always evaluates to 0 percent; in particular
both current=80,target=70 and current=75,target=70 give 0 percent. -/
theorem calculateWeightProgress_lose_formula (c t : ℚ) (ht : 0 < t) (hlt : t < c) :
    calculateWeightProgress c t "lose_weight" =
      JSNum.num ((max c t - c) / (max c t - t) * 100) ∧
    (max c t - c) / (max c t - t) * 100 = 0 := by
  have hc : c ≠ 0 := ne_of_gt (ht.trans hlt)
  have ht0 : t ≠ 0 := ne_of_gt ht
  have hmax : max c t = c := max_eq_left hlt.le
  have hval : (max c t - c) / (max c t - t) * 100 = 0 := by
    rw [hmax, sub_self, zero_div, zero_mul]
  refine ⟨?_, hval⟩
  rw [hval]
  have hd : c - t ≠ 0 := sub_ne_zero.mpr (ne_of_gt hlt)
  have hguard : ¬(c = 0 ∨ t = 0) := by push_neg; exact ⟨hc, ht0⟩
  simp only [calculateWeightProgress, hguard, if_false, ite_false, ite_true,
    eq_self_iff_true, if_true, hmax, sub_self]
  norm_num [jsDiv, hd, jsMul, jsClampProgress, jsMax, jsMin]

/-- C2 witness: the amended theorem applied at the two concrete inputs of the
claim, both evaluating to 0 percent. -/
theorem calculateWeightProgress_lose_formula_witness :
    calculateWeightProgress 80 70 "lose_weight" = JSNum.num 0 ∧
    calculateWeightProgress 75 70 "lose_weight" = JSNum.num 0 := by
  constructor
  · have h := calculateWeightProgress_lose_formula 80 70 (by norm_num) (by norm_num)
    rw [h.1, h.2]
  · have h := calculateWeightProgress_lose_formula 75 70 (by norm_num) (by norm_num)
    rw [h.1, h.2]

/-- C3 counterexample: at ratios 30/40/40 (sum 110) the warning shows, the
Save Goals button is disabled even on a dirty form, and the schema refinement
rejects the data — submission is blocked, contrary to the claim. -/
theorem macroRatios_sum110_blocks_submission :
    showMacroSumWarning (some 30) (some 40) (some 40) = true ∧
    saveGoalsDisabled true (some 30) (some 40) (some 40) = true ∧
    goalSettingMacroRefine (some 30) (some 40) (some 40) = false := by
  refine ⟨?_, ?_, ?_⟩
  · norm_num [showMacroSumWarning, macroSum]
  · norm_num [saveGoalsDisabled, showMacroSumWarning, macroSum]
  · norm_num [goalSettingMacroRefine, truthyNum]

/-- C3 amended: when the three ratios are provided and positive, a sum other
than 100 shows the warning, disables the submit button regardless of form
dirtiness, and fails the schema refinement; a sum of exactly 100 shows no
warning and passes the refinement. -/
theorem macroRatios_warning_and_block (p c f : ℚ) (hp : 0 < p) (hc : 0 < c)
    (hf : 0 < f) :
    (p + c + f ≠ 100 →
      showMacroSumWarning (some p) (some c) (some f) = true ∧
      (∀ isDirty : Bool, saveGoalsDisabled isDirty (some p) (some c) (some f) = true) ∧
      goalSettingMacroRefine (some p) (some c) (some f) = false) ∧
    (p + c + f = 100 →
      showMacroSumWarning (some p) (some c) (some f) = false ∧
      goalSettingMacroRefine (some p) (some c) (some f) = true) := by
  have hsum : (0 : ℚ) < p + c + f := by linarith
  constructor
  · intro hne
    have hw : showMacroSumWarning (some p) (some c) (some f) = true := by
      simp only [showMacroSumWarning, macroSum, Option.getD_some, Bool.and_eq_true,
        decide_eq_true_eq]
      exact ⟨hsum, hne⟩
    refine ⟨hw, fun isDirty => by simp [saveGoalsDisabled, hw], ?_⟩
    simp [goalSettingMacroRefine, truthyNum, hp.ne', hc.ne', hf.ne', hne]
  · intro heq
    constructor
    · simp [showMacroSumWarning, macroSum, heq]
    · simp [goalSettingMacroRefine, truthyNum, hp.ne', hc.ne', hf.ne', heq]

/-- C3 witness: the amended theorem at ratios 30/40/40 (blocked) and 30/40/30
(accepted). -/
theorem macroRatios_warning_and_block_witness :
    showMacroSumWarning (some (30 : ℚ)) (some 40) (some 40) = true ∧
    saveGoalsDisabled true (some (30 : ℚ)) (some 40) (some 40) = true ∧
    goalSettingMacroRefine (some (30 : ℚ)) (some 40) (some 40) = false ∧
    showMacroSumWarning (some (30 : ℚ)) (some 40) (some 30) = false ∧
    goalSettingMacroRefine (some (30 : ℚ)) (some 40) (some 30) = true := by
  have h1 := (macroRatios_warning_and_block 30 40 40 (by norm_num) (by norm_num)
    (by norm_num)).1 (by norm_num)
  have h2 := (macroRatios_warning_and_block 30 40 30 (by norm_num) (by norm_num)
    (by norm_num)).2 (by norm_num)
  exact ⟨h1.1, h1.2.1 true, h1.2.2, h2.1, h2.2⟩

/-- C4: evaluation at the failing input — with a protein ratio of 30 and a
zero calorie total, the percentages record computes 0/0 = NaN (or Infinity
when some protein was logged against zero calories), not the 0 the claim
requires; the getMacroProgress helper does guard those cases and returns 0,
as does the percentages record when the ratio is undefined. -/
theorem percentages_division_by_zero_eval :
    percentagesProtein ⟨none, some 30, none, none⟩ ⟨0, 0, 0, 0⟩ = JSNum.nan ∧
    percentagesProtein ⟨none, some 30, none, none⟩ ⟨0, 5, 0, 0⟩ = JSNum.posInf ∧
    getMacroProgress 0 (some 30) 0 (some 30) = 0 ∧
    getMacroProgress 150 none 2000 (some 30) = 0 ∧
    percentagesProtein ⟨none, none, none, none⟩ ⟨0, 5, 0, 0⟩ = JSNum.num 0 := by
  refine ⟨?_, ?_, ?_, ?_, ?_⟩
  · norm_num [percentagesProtein, percentagesMacroField, truthyNum, jsDiv, jsMul]
  · norm_num [percentagesProtein, percentagesMacroField, truthyNum, jsDiv, jsMul]
  · norm_num [getMacroProgress, truthyNum]
  · norm_num [getMacroProgress, truthyNum]
  · norm_num [percentagesProtein, percentagesMacroField, truthyNum]

/-- C5: whenever no row of the meal-log list matches the reference day — in
particular for the empty list — the daily totals aggregator returns the
all-zero record. -/
theorem dailyTotals_empty_or_no_match (mealLogs : List MealLog) (refDay : ℤ)
    (h : ∀ log ∈ mealLogs, matchesDate log.created_at refDay = false) :
    dailyTotals mealLogs refDay = zeroTotals := by
  have hfil : todayLogs mealLogs refDay = [] := by
    simp only [todayLogs]
    exact List.filter_eq_nil_iff.mpr (fun a ha => by simp [h a ha])
  simp [dailyTotals, hfil]

/-- C5 witness: the theorem applied to the empty list and to a singleton whose
created_at falls on day 2 while day 0 is asked for. -/
theorem dailyTotals_empty_or_no_match_witness :
    dailyTotals [] 0 = zeroTotals ∧
    dailyTotals [⟨500, 30, 50, 20, ⟨2880, 0⟩⟩] 0 = zeroTotals := by
  exact ⟨dailyTotals_empty_or_no_match [] 0 (by simp),
         dailyTotals_empty_or_no_match [⟨500, 30, 50, 20, ⟨2880, 0⟩⟩] 0 (by decide)⟩

/-- C6: for every nonempty food-item list, the stored meal-log row carries as
each total the sum over the items of the per-serving value times the quantity,
while every stored food-item row keeps the unmultiplied per-serving values and
the quantity of its item. -/
theorem logMeal_totals_and_per_serving_items (food_items : List FoodItemData)
    (_hne : food_items ≠ []) :
    (logMeal (buildMealData food_items)).1.total_calories =
      (food_items.map (fun item => item.calories * item.quantity)).sum ∧
    (logMeal (buildMealData food_items)).1.total_protein =
      (food_items.map (fun item => item.protein * item.quantity)).sum ∧
    (logMeal (buildMealData food_items)).1.total_carbs =
      (food_items.map (fun item => item.carbs * item.quantity)).sum ∧
    (logMeal (buildMealData food_items)).1.total_fat =
      (food_items.map (fun item => item.fat * item.quantity)).sum ∧
    (logMeal (buildMealData food_items)).2 =
      food_items.map (fun item =>
        ⟨item.name, item.calories, item.protein, item.carbs, item.fat,
         item.quantity, item.unit, item.barcode⟩) := by
  have htot : totalNutrition food_items =
      ⟨(food_items.map (fun item => item.calories * item.quantity)).sum,
       (food_items.map (fun item => item.protein * item.quantity)).sum,
       (food_items.map (fun item => item.carbs * item.quantity)).sum,
       (food_items.map (fun item => item.fat * item.quantity)).sum⟩ := by
    simpa [totalNutrition, zeroTotals] using foldl_nutritionStep food_items zeroTotals
  refine ⟨?_, ?_, ?_, ?_, ?_⟩
  · simp [logMeal, buildMealData, htot]
  · simp [logMeal, buildMealData, htot]
  · simp [logMeal, buildMealData, htot]
  · simp [logMeal, buildMealData, htot]
  · simp [logMeal, buildMealData, List.map_map]

/-- C6 witness: the theorem at items A (100 kcal per serving, quantity 2) and
B (50 kcal per serving, quantity 1): the stored total is 250 kcal while the
stored rows keep the per-serving 100 and 50. -/
theorem logMeal_totals_and_per_serving_items_witness :
    (logMeal (buildMealData [⟨"A", 100, 10, 20, 5, 2, "g", none⟩,
        ⟨"B", 50, 5, 10, 2, 1, "g", none⟩])).1.total_calories = 250 ∧
    ((logMeal (buildMealData [⟨"A", 100, 10, 20, 5, 2, "g", none⟩,
        ⟨"B", 50, 5, 10, 2, 1, "g", none⟩])).2.map
      (fun row => (row.calories, row.quantity))) = [(100, 2), (50, 1)] := by
  have h := logMeal_totals_and_per_serving_items
    [⟨"A", 100, 10, 20, 5, 2, "g", none⟩, ⟨"B", 50, 5, 10, 2, 1, "g", none⟩]
    (by simp)
  constructor
  · rw [h.1]; norm_num
  · rw [h.2.2.2.2]; norm_num

/-- C7 counterexample: equal nonzero current and target weight under
lose_weight puts 0/0 = NaN through the clamp, and Math.min and Math.max keep
NaN, so the progress value handed to the bar is not in the interval at all. -/
theorem weightProgress_nan_at_equal_weights :
    calculateWeightProgress 75 75 "lose_weight" = JSNum.nan ∧
    withinProgressRange JSNum.nan = false := by
  constructor
  · norm_num [calculateWeightProgress, jsDiv, jsMul, jsClampProgress, jsMax, jsMin]
  · rfl

/-- C7 amended: the calorie progress bar value is clamped into the interval
from 0 to 100 for every input, the weight progress bar value is a clamped
finite number for every input with distinct current and target weights (equal
nonzero weights give NaN), and the textual percentage is the unclamped ratio
times 100, exceeding 100 when intake exceeds the target. -/
theorem progress_clamping_policy :
    (∀ (mealLogs : List MealLog) (tc : Option ℚ) (refDay : ℤ),
        0 ≤ calculateCalorieProgress mealLogs tc refDay ∧
        calculateCalorieProgress mealLogs tc refDay ≤ 100) ∧
    (∀ (c t : ℚ) (g : String), c ≠ t →
        withinProgressRange (calculateWeightProgress c t g) = true) ∧
    percentagesCalories ⟨some 2000, none, none, none⟩ ⟨3000, 0, 0, 0⟩ = 150 ∧
    (100 : ℚ) < percentagesCalories ⟨some 2000, none, none, none⟩ ⟨3000, 0, 0, 0⟩ := by
  refine ⟨?_, ?_, ?_, ?_⟩
  · intro mealLogs tc refDay
    constructor
    · unfold calculateCalorieProgress
      split
      · norm_num
      · exact le_min (le_max_right _ _) (by norm_num)
    · unfold calculateCalorieProgress
      split
      · norm_num
      · exact min_le_right _ _
  · intro c t g hne
    by_cases hct : c = 0 ∨ t = 0
    · simp [calculateWeightProgress, hct, withinProgressRange]
    · push_neg at hct
      obtain ⟨hc, ht⟩ := hct
      by_cases hg1 : g = "lose_weight"
      · subst hg1
        rcases lt_or_gt_of_ne hne with hlt | hgt
        · have hmax : max c t = t := max_eq_right hlt.le
          have hnum : (0 : ℚ) < t - c := sub_pos.mpr hlt
          simp only [calculateWeightProgress, hmax]
          rw [if_neg (by push_neg; exact ⟨hc, ht⟩)]
          norm_num [sub_self, jsDiv, hnum.ne', hnum, jsMul, jsClampProgress,
            jsMax, jsMin, withinProgressRange]
        · have hmax : max c t = c := max_eq_left hgt.le
          have hd : c - t ≠ 0 := sub_ne_zero.mpr (ne_of_gt hgt)
          simp only [calculateWeightProgress, hmax]
          rw [if_neg (by push_neg; exact ⟨hc, ht⟩)]
          norm_num [sub_self, jsDiv, hd, jsMul, jsClampProgress, jsMax, jsMin,
            withinProgressRange]
      · by_cases hg2 : g = "gain_weight"
        · subst hg2
          rcases lt_or_gt_of_ne hne with hlt | hgt
          · have hmin : min c t = c := min_eq_left hlt.le
            have hd : t - c ≠ 0 := sub_ne_zero.mpr (ne_of_gt hlt)
            simp only [calculateWeightProgress, hmin]
            rw [if_neg (by push_neg; exact ⟨hc, ht⟩)]
            norm_num [hg1, sub_self, jsDiv, hd, jsMul, jsClampProgress, jsMax,
              jsMin, withinProgressRange]
          · have hmin : min c t = t := min_eq_right hgt.le
            have hnum : (0 : ℚ) < c - t := sub_pos.mpr hgt
            simp only [calculateWeightProgress, hmin]
            rw [if_neg (by push_neg; exact ⟨hc, ht⟩)]
            norm_num [hg1, sub_self, jsDiv, hnum.ne', hnum, jsMul,
              jsClampProgress, jsMax, jsMin, withinProgressRange]
        · have hguard : ¬(c = 0 ∨ t = 0) := by push_neg; exact ⟨hc, ht⟩
          simp [calculateWeightProgress, hguard, hg1, hg2, withinProgressRange]
  · norm_num [percentagesCalories, truthyNum]
  · norm_num [percentagesCalories, truthyNum]

/-- C7 witness: the clamping statements applied to a concrete weight pair and
a concrete calorie input. -/
theorem progress_clamping_policy_witness :
    withinProgressRange (calculateWeightProgress 60 70 "lose_weight") = true ∧
    0 ≤ calculateCalorieProgress [] (some 2000) 0 := by
  exact ⟨progress_clamping_policy.2.1 60 70 "lose_weight" (by norm_num),
         (progress_clamping_policy.1 [] (some 2000) 0).1⟩

/-- C8 counterexample: the timestamp written as 01:00 on day 0 at offset
+05:00 literally carries day 0, but parsing applies the offset, toISOString
re-serialises in UTC, and the row is not matched against reference day 0. -/
theorem matchesDate_offset_applied_counterexample :
    literalDay ⟨60, 300⟩ = 0 ∧
    toISODateDay ⟨60, 300⟩ = -1 ∧
    matchesDate ⟨60, 300⟩ 0 = false := by
  decide

/-- C8 amended: a row is included exactly when the UTC calendar day of its
created_at instant — the written day-time with the written offset applied —
equals the reference day; only for offset zero does this coincide with the
literally written year-month-day, with the time of day discarded. -/
theorem matchesDate_utc_normalized (d m off refDay : ℤ) (h0 : 0 ≤ m)
    (h1 : m < 1440) :
    (matchesDate ⟨1440 * d + m, off⟩ refDay = true ↔
      dayIndex (1440 * d + m - off) = refDay) ∧
    (off = 0 → (matchesDate ⟨1440 * d + m, off⟩ refDay = true ↔ d = refDay)) := by
  constructor
  · simp [matchesDate, toISODateDay]
  · intro hoff
    subst hoff
    have hday : dayIndex (1440 * d + m) = d := by
      show (1440 * d + m) / 1440 = d
      omega
    simp [matchesDate, toISODateDay, hday]

/-- C8 witness: a timestamp at 01:30 on day 1 with offset zero is matched
against reference day 1. -/
theorem matchesDate_utc_normalized_witness :
    matchesDate ⟨1440 * 1 + 90, 0⟩ 1 = true := by
  exact ((matchesDate_utc_normalized 1 90 0 1 (by norm_num) (by norm_num)).2 rfl).mpr rfl

/-- C9: with a set (truthy) calorie target, a deficit of more than 500 kcal
against the day total puts the add-a-snack suggestion in the output, and an
excess of more than 500 kcal puts the adjust-next-meal suggestion in the
output, whatever the rest of the goals and profile. -/
theorem getRecommendations_calorie_thresholds (profile : UserProfileData)
    (goals : UserGoals) (totals : Totals) (tc : ℚ)
    (hset : goals.target_calories = some tc) (hnz : tc ≠ 0) :
    (500 < tc - totals.calories →
      Recommendation.addSnack (tc - totals.calories) ∈
        getRecommendations profile goals totals) ∧
    (tc - totals.calories < -500 →
      Recommendation.adjustNextMeal |tc - totals.calories| ∈
        getRecommendations profile goals totals) := by
  have htr : truthyNum (some tc) = true := by simp [truthyNum, hnz]
  constructor
  · intro hgt
    have hcal : calorieRecommendations goals totals =
        [Recommendation.addSnack (tc - totals.calories)] := by
      simp [calorieRecommendations, hset, htr, hgt]
    simp [getRecommendations, recommendationRules, hcal]
  · intro hlt
    have hng : ¬ (500 : ℚ) < tc - totals.calories := by linarith
    have hcal : calorieRecommendations goals totals =
        [Recommendation.adjustNextMeal |tc - totals.calories|] := by
      simp [calorieRecommendations, hset, htr, hng, hlt]
    simp [getRecommendations, recommendationRules, hcal]

/-- C9 witness: target 2600 with day total 2000 (deficit 600) yields the snack
suggestion; day total 3200 (excess 600) yields the adjust suggestion. -/
theorem getRecommendations_calorie_thresholds_witness :
    Recommendation.addSnack ((2600 : ℚ) - 2000) ∈
      getRecommendations ⟨none, none, none⟩ ⟨some 2600, none, none, none⟩
        ⟨2000, 0, 0, 0⟩ ∧
    Recommendation.adjustNextMeal |(2600 : ℚ) - 3200| ∈
      getRecommendations ⟨none, none, none⟩ ⟨some 2600, none, none, none⟩
        ⟨3200, 0, 0, 0⟩ := by
  exact ⟨(getRecommendations_calorie_thresholds ⟨none, none, none⟩
            ⟨some 2600, none, none, none⟩ ⟨2000, 0, 0, 0⟩ 2600 rfl
            (by norm_num)).1 (by norm_num),
         (getRecommendations_calorie_thresholds ⟨none, none, none⟩
            ⟨some 2600, none, none, none⟩ ⟨3200, 0, 0, 0⟩ 2600 rfl
            (by norm_num)).2 (by norm_num)⟩

/-- C10: for every profile, goals record, meal-log list and reference day the
recommendation list is nonempty, and when no threshold rule fires it is
exactly the single keep-tracking fallback message. -/
theorem getRecommendations_never_empty (profile : UserProfileData)
    (goals : UserGoals) (mealLogs : List MealLog) (refDay : ℤ) :
    getRecommendationsFromLogs profile goals mealLogs refDay ≠ [] ∧
    (recommendationRules profile goals (dailyTotals mealLogs refDay) = [] →
      getRecommendationsFromLogs profile goals mealLogs refDay =
        [Recommendation.keepTracking]) := by
  by_cases h : recommendationRules profile goals (dailyTotals mealLogs refDay) = []
  · refine ⟨?_, fun _ => ?_⟩
    · simp [getRecommendationsFromLogs, getRecommendations, h]
    · simp [getRecommendationsFromLogs, getRecommendations, h]
  · refine ⟨?_, fun hh => absurd hh h⟩
    have hie : (recommendationRules profile goals
        (dailyTotals mealLogs refDay)).isEmpty = false := by
      simp [List.isEmpty_iff, h]
    simp [getRecommendationsFromLogs, getRecommendations, hie, h]

/-- C10 witness: all-undefined profile and goals with the empty log list give
exactly the fallback message, hence a nonempty list. -/
theorem getRecommendations_never_empty_witness :
    getRecommendationsFromLogs ⟨none, none, none⟩ ⟨none, none, none, none⟩ [] 0 =
      [Recommendation.keepTracking] := by
  exact (getRecommendations_never_empty ⟨none, none, none⟩ ⟨none, none, none, none⟩
    [] 0).2 (by decide)

end DietTracker
